import Mathlib

/-!
Shallow embedding of model/inhibition_layer.py: a family of lateral-inhibition
operators acting on the channel axis of a rank-4 activation tensor.  The
operator classes SingleShotInhibition, SingleShotGaussianChannelFilter,
RecurrentGaussianChannelFilter, ConvergedInhibition, ConvergedFrozenInhibition,
ConvergedGaussianChannelFilter and ParametrizedInhibition are embedded as
records of their instance attributes together with explicit constructor and
forward functions.  Machine floats are modelled as rationals.  The low-level
collaborators (kernel generation, Toeplitz construction, channel mixing,
dense inversion) are not part of the sources and are modelled from the spec
contracts; these carry a doc comment saying so.
-/

namespace Inhibition

/-- Errors a constructor can raise: a failed assert statement, or an unbound
free name looked up at call time. -/
inductive PyError where
  | assertError
  | nameError
deriving DecidableEq

/-- The two kernel families the repository generates: the ricker / mexican-hat
wavelet and the gaussian bell.  In the python source the family is selected by
which generator function a class's method named with a leading underscore
(make filter) calls; here it is an explicit tag. -/
inductive KernelFamily where
  | ricker
  | gaussian
deriving DecidableEq

/-- Modelled from the spec: the fixed symmetric tap profile of each kernel
family, as a function of the spread parameter and the signed offset from the
center tap.  The spec treats the exact shape as an external collaborator
detail; the model only keeps what the spec states: the profile is
deterministic and symmetric around the center (it depends on the offset only
through its square). -/
def profile (fam : KernelFamily) (width : ℚ) (offset : ℤ) : ℚ :=
  match fam with
  | KernelFamily.ricker => 1 - ((offset * offset : ℤ) : ℚ) / (width * width + 1)
  | KernelFamily.gaussian => (width * width + 1) / (width * width + ((offset * offset : ℤ) : ℚ) + 1)

/-- Modelled from the spec: the kernel generator
generate_kernel(scope, width, damp, self_connect, family), standing in for
util.weight_initialization.mexican_hat, util.weight_initialization.gaussian
and util.ricker.ricker, which are outside the given sources.  Deterministic
given its inputs; produces a 1D kernel of length scope, symmetric around the
center tap; damp is an amplitude scale on every tap; self_connect = false
zeroes the center (self-interaction) tap. -/
def genKernel (fam : KernelFamily) (scope : ℕ) (width damp : ℚ) (selfConnect : Bool) : List ℚ :=
  (List.range scope).map fun i =>
    if i = (scope - 1) / 2 ∧ selfConnect = false then 0
    else damp * profile fam width ((i : ℤ) - (((scope - 1) / 2 : ℕ) : ℤ))

/-- A square interaction matrix: its dimension together with its entries.
Entries outside the square are fixed to 0 so that matrices are total
functions. -/
structure Mat where
  dim : ℕ
  entry : ℕ → ℕ → ℚ

/-- A rank-4 activation tensor with python layout [batch, channel, height,
width]; entries are a total function of the four indices. -/
structure Tensor where
  batch : ℕ
  channels : ℕ
  height : ℕ
  width : ℕ
  entry : ℕ → ℕ → ℕ → ℕ → ℚ

/-- Modelled from the spec: build_matrix under the circular boundary policy
(util.convolution.toeplitz1d_circular, outside the given sources).  Kernel
taps wrap modulo the dimension, producing a circulant matrix; taps landing on
the same wrapped offset accumulate. -/
def toeplitz1dCircular (k : List ℚ) (dim : ℕ) : Mat where
  dim := dim
  entry := fun i j =>
    if i < dim ∧ j < dim then
      ∑ t ∈ Finset.range k.length,
        if ((t : ℤ) - (((k.length - 1) / 2 : ℕ) : ℤ)) % (dim : ℤ)
            = ((j : ℤ) - (i : ℤ)) % (dim : ℤ) then k.getD t 0 else 0
    else 0

/-- Modelled from the spec: build_matrix under the zeros boundary policy
(util.convolution.toeplitz1d_zero, outside the given sources).  Kernel taps
falling outside the channel range are dropped, producing a banded Toeplitz
matrix. -/
def toeplitz1dZero (k : List ℚ) (dim : ℕ) : Mat where
  dim := dim
  entry := fun i j =>
    if i < dim ∧ j < dim then
      ∑ t ∈ Finset.range k.length,
        if ((t : ℤ) - (((k.length - 1) / 2 : ℕ) : ℤ)) = (j : ℤ) - (i : ℤ) then k.getD t 0
        else 0
    else 0

/-- The identity matrix torch.eye of a given dimension. -/
def matId (n : ℕ) : Mat where
  dim := n
  entry := fun i j => if i = j ∧ i < n then 1 else 0

/-- Entrywise matrix subtraction (shapes agree at every use site in the
source; the dimension of the left operand is kept). -/
def matSub (A B : Mat) : Mat where
  dim := A.dim
  entry := fun i j => if i < A.dim ∧ j < A.dim then A.entry i j - B.entry i j else 0

/-- Determinant of the leading n by n block by Laplace expansion along the
first column; used only to build the dense inverse below. -/
def detN : ℕ → (ℕ → ℕ → ℚ) → ℚ
  | 0, _ => 1
  | n + 1, A =>
      ∑ i ∈ Finset.range (n + 1),
        (-1 : ℚ) ^ i * A i 0 * detN n (fun r c => A (if r < i then r else r + 1) (c + 1))

/-- Modelled from the spec: the generic dense matrix inversion collaborator
(torch.Tensor.inverse), realised by the adjugate formula: the (i, j) entry of
the inverse is the (j, i) cofactor divided by the determinant.  On a singular
matrix the python call raises; the model then divides by zero, which in ℚ
yields junk values, and no claim relies on that case. -/
def matInvM (M : Mat) : Mat where
  dim := M.dim
  entry := fun i j =>
    if i < M.dim ∧ j < M.dim then
      (detN M.dim M.entry)⁻¹ *
        ((-1 : ℚ) ^ (i + j) *
          detN (M.dim - 1)
            (fun r c => M.entry (if r < j then r else r + 1) (if c < i then c else c + 1)))
    else 0

/-- Modelled from the spec: mix_channels / util.convolution.convolve_3d_toeplitz
(outside the given sources): applies a square matrix as a linear map on the
channel axis at every (batch, height, width) position, returning a freshly
built tensor of the input shape. -/
def mixChannels (M : Mat) (x : Tensor) : Tensor :=
  { x with entry := fun n c h w => ∑ i ∈ Finset.range M.dim, M.entry c i * x.entry n i h w }

/-- Pointwise tensor addition (python + on same-shape tensors; the shape of
the left operand is kept). -/
def addT (a b : Tensor) : Tensor :=
  { a with entry := fun n c h w => a.entry n c h w + b.entry n c h w }

/-- The scalar 0 broadcast over the shape of a given tensor, as produced by
the python expression 0 in a tensor sum. -/
def zerosLike (a : Tensor) : Tensor :=
  { a with entry := fun _ _ _ _ => 0 }

/-- Constructor arguments of SingleShotInhibition, with the python defaults.
in_channels is a required positional parameter of the python constructor. -/
structure SingleShotArgs where
  scope : ℕ
  ricker_width : ℚ
  damp : ℚ
  in_channels : ℕ
  learn_weights : Bool := false
  pad : String := "circular"
  self_connection : Bool := false

/-- Instance state of SingleShotInhibition and of its subclasses
SingleShotGaussianChannelFilter and RecurrentGaussianChannelFilter: the
attributes set by the constructor.  The family tag records which kernel
generator the dispatched filter-making method of the concrete class calls. -/
structure SingleShotState where
  learn_weights : Bool
  in_channels : ℕ
  scope : ℕ
  damp : ℚ
  is_circular : Bool
  self_connection : Bool
  width : ℚ
  family : KernelFamily
  inhibition_filter : List ℚ
deriving DecidableEq

/-- The filter-making method shared (by override) between the single-shot and
frozen classes.  In the python source its call to the kernel generator passes
the free name scope, not the instance attribute: the name resolves to a
module-level global when one exists and raises NameError otherwise, and the
scope argument stored on the instance is never read here.  globalScope models
that module-level binding. -/
def makeFilter (fam : KernelFamily) (globalScope : Option ℕ) (width damp : ℚ)
    (selfConnect : Bool) : Except PyError (List ℚ) :=
  match globalScope with
  | none => Except.error PyError.nameError
  | some g => Except.ok (genKernel fam g width damp selfConnect)

/-- SingleShotInhibition constructor: asserts the pad policy, stores the
attributes, then builds the filter via the ricker generator (through the
free-name lookup modelled by makeFilter). -/
def singleShotInit (a : SingleShotArgs) (globalScope : Option ℕ) :
    Except PyError SingleShotState :=
  if a.pad = "circular" ∨ a.pad = "zeros" then
    match makeFilter KernelFamily.ricker globalScope a.ricker_width a.damp a.self_connection with
    | Except.error e => Except.error e
    | Except.ok filt =>
        Except.ok
          { learn_weights := a.learn_weights
            in_channels := a.in_channels
            scope := a.scope
            damp := a.damp
            is_circular := a.pad == "circular"
            self_connection := a.self_connection
            width := a.ricker_width
            family := KernelFamily.ricker
            inhibition_filter := filt }
  else Except.error PyError.assertError

/-- Constructor arguments shared by SingleShotGaussianChannelFilter and
RecurrentGaussianChannelFilter. -/
structure RecurrentArgs where
  scope : ℕ
  width : ℚ
  damp : ℚ
  in_channels : ℕ
  pad : String := "circular"
  self_connection : Bool := false

/-- SingleShotGaussianChannelFilter constructor: delegates to the single-shot
constructor with learn_weights false, with the filter-making method overridden
to the gaussian generator (still through the free-name scope lookup). -/
def gaussianChannelFilterInit (a : RecurrentArgs) (globalScope : Option ℕ) :
    Except PyError SingleShotState :=
  if a.pad = "circular" ∨ a.pad = "zeros" then
    match makeFilter KernelFamily.gaussian globalScope a.width a.damp a.self_connection with
    | Except.error e => Except.error e
    | Except.ok filt =>
        Except.ok
          { learn_weights := false
            in_channels := a.in_channels
            scope := a.scope
            damp := a.damp
            is_circular := a.pad == "circular"
            self_connection := a.self_connection
            width := a.width
            family := KernelFamily.gaussian
            inhibition_filter := filt }
  else Except.error PyError.assertError

/-- RecurrentGaussianChannelFilter constructor: delegates unchanged to the
SingleShotGaussianChannelFilter constructor (the subclass only overrides
forward). -/
def recurrentInit (a : RecurrentArgs) (globalScope : Option ℕ) :
    Except PyError SingleShotState :=
  gaussianChannelFilterInit a globalScope

/-- The interaction matrix a single-shot style forward call builds: a
circular or zero-padded Toeplitz matrix of dimension the stored in_channels
attribute, from the stored filter. -/
def singleShotTpl (st : SingleShotState) : Mat :=
  if st.is_circular then toeplitz1dCircular st.inhibition_filter st.in_channels
  else toeplitz1dZero st.inhibition_filter st.in_channels

/-- SingleShotInhibition.forward: build the Toeplitz matrix from the current
filter, mix the channels with it, and add the input back unless the
self-connection is already embedded (python: (0 if self_connection else
activations) + convolve). -/
def singleShotForward (st : SingleShotState) (x : Tensor) : Tensor :=
  addT (if st.self_connection then zerosLike x else x) (mixChannels (singleShotTpl st) x)

/-- The loop body state of RecurrentGaussianChannelFilter.forward: python
runs a for loop whose body sets the carried tensor to activations plus the
mixed carried tensor. -/
def recurrentLoop (tpl : Mat) (x : Tensor) : ℕ → Tensor → Tensor
  | 0, y => y
  | k + 1, y => recurrentLoop tpl x k (addT x (mixChannels tpl y))

/-- RecurrentGaussianChannelFilter.forward: build the Toeplitz matrix once,
start from a clone of the input, and run the update loop a fixed 10 times. -/
def recurrentForward (st : SingleShotState) (x : Tensor) : Tensor :=
  recurrentLoop (singleShotTpl st) x 10 x

/-- The spec-side iteration: the k-th iterate of the update
y goes to x + Mix(T, y) started at x. -/
def specIter (tpl : Mat) (x : Tensor) : ℕ → Tensor
  | 0 => x
  | k + 1 => addT x (mixChannels tpl (specIter tpl x k))

/-- Constructor arguments of ConvergedInhibition. -/
structure ConvergedArgs where
  scope : ℕ
  ricker_width : ℚ
  damp : ℚ
  in_channels : ℕ
  pad : String := "circular"
  self_connection : Bool := false

/-- Instance state of ConvergedInhibition: its constructor attributes and
trainable filter; no inverse is cached. -/
structure ConvergedState where
  scope : ℕ
  in_channels : ℕ
  damp : ℚ
  is_circular : Bool
  self_connection : Bool
  width : ℚ
  inhibition_filter : List ℚ
deriving DecidableEq

/-- ConvergedInhibition constructor: asserts the pad policy, then builds the
filter by the ricker generator from the scope parameter (here the local
parameter, not the free name, so no NameError is possible). -/
def convergedInit (a : ConvergedArgs) : Except PyError ConvergedState :=
  if a.pad = "circular" ∨ a.pad = "zeros" then
    Except.ok
      { scope := a.scope
        in_channels := a.in_channels
        damp := a.damp
        is_circular := a.pad == "circular"
        self_connection := a.self_connection
        width := a.ricker_width
        inhibition_filter :=
          genKernel KernelFamily.ricker a.scope a.ricker_width a.damp a.self_connection }
  else Except.error PyError.assertError

/-- The interaction matrix a converged forward call builds from a filter
under the configured boundary policy. -/
def convergedTpl (st : ConvergedState) : Mat :=
  if st.is_circular then toeplitz1dCircular st.inhibition_filter st.in_channels
  else toeplitz1dZero st.inhibition_filter st.in_channels

/-- ConvergedInhibition.forward: rebuild the Toeplitz matrix from the live
filter, invert torch.eye minus it, and mix the channels with the inverse. -/
def convergedForward (st : ConvergedState) (x : Tensor) : Tensor :=
  mixChannels (matInvM (matSub (matId st.in_channels) (convergedTpl st))) x

/-- Constructor arguments of ConvergedFrozenInhibition and its subclass
ConvergedGaussianChannelFilter (damp has the python default 0.12; note the
argument order differs from the other classes). -/
structure FrozenArgs where
  scope : ℕ
  ricker_width : ℚ
  in_channels : ℕ
  damp : ℚ := 12 / 100
  pad : String := "circular"
  self_connection : Bool := false

/-- Instance state of ConvergedFrozenInhibition: the constructor attributes,
the non-trainable filter, and the cached inverse built at construction. -/
structure FrozenState where
  scope : ℕ
  in_channels : ℕ
  damp : ℚ
  is_circular : Bool
  self_connection : Bool
  width : ℚ
  inhibition_filter : List ℚ
  tpl_inv : Mat

/-- The Toeplitz matrix the frozen constructor builds from a filter under the
configured pad policy. -/
def frozenTpl (a : FrozenArgs) (filt : List ℚ) : Mat :=
  if a.pad = "circular" then toeplitz1dCircular filt a.in_channels
  else toeplitz1dZero filt a.in_channels

/-- The frozen state assembled on the success path of the constructor: the
inverse of torch.eye minus the Toeplitz matrix is computed here, once. -/
def frozenMk (a : FrozenArgs) (filt : List ℚ) : FrozenState :=
  { scope := a.scope
    in_channels := a.in_channels
    damp := a.damp
    is_circular := a.pad == "circular"
    self_connection := a.self_connection
    width := a.ricker_width
    inhibition_filter := filt
    tpl_inv := matInvM (matSub (matId a.in_channels) (frozenTpl a filt)) }

/-- ConvergedFrozenInhibition / ConvergedGaussianChannelFilter constructor:
asserts the pad policy, builds the filter via the dispatched filter-making
method (ricker for the frozen class, gaussian for its subclass; both read the
free name scope), then caches the inverse. -/
def frozenInit (fam : KernelFamily) (a : FrozenArgs) (globalScope : Option ℕ) :
    Except PyError FrozenState :=
  if a.pad = "circular" ∨ a.pad = "zeros" then
    match makeFilter fam globalScope a.ricker_width a.damp a.self_connection with
    | Except.error e => Except.error e
    | Except.ok filt => Except.ok (frozenMk a filt)
  else Except.error PyError.assertError

/-- ConvergedFrozenInhibition.forward: mix the channels with the cached
inverse.  The python method assigns to nothing; the returned state is the
input state unchanged, made explicit in the pair. -/
def frozenForward (st : FrozenState) (x : Tensor) : Tensor × FrozenState :=
  (mixChannels st.tpl_inv x, st)

/-- Constructor arguments of ParametrizedInhibition. -/
structure ParamArgs where
  scope : ℕ
  initial_ricker_width : ℚ
  initial_damp : ℚ
  in_channels : ℕ
  pad : String := "circular"
  self_connection : Bool := false

/-- Instance state of ParametrizedInhibition: only the two trainable scalars
besides the configuration; no kernel vector is stored. -/
structure ParamState where
  scope : ℕ
  in_channels : ℕ
  is_circular : Bool
  self_connection : Bool
  damp : ℚ
  width : ℚ
deriving DecidableEq

/-- ParametrizedInhibition constructor: asserts the pad policy and stores the
two scalars as the trainable parameters. -/
def parametrizedInit (a : ParamArgs) : Except PyError ParamState :=
  if a.pad = "circular" ∨ a.pad = "zeros" then
    Except.ok
      { scope := a.scope
        in_channels := a.in_channels
        is_circular := a.pad == "circular"
        self_connection := a.self_connection
        damp := a.initial_damp
        width := a.initial_ricker_width }
  else Except.error PyError.assertError

/-- ParametrizedInhibition.forward: synthesize the ricker kernel from the
current width and damp scalars (util.ricker.ricker on self.scope), build the
Toeplitz matrix from it, invert torch.eye minus it, and mix the channels. -/
def parametrizedForward (st : ParamState) (x : Tensor) : Tensor :=
  mixChannels
    (matInvM (matSub (matId st.in_channels)
      (if st.is_circular then
        toeplitz1dCircular
          (genKernel KernelFamily.ricker st.scope st.width st.damp st.self_connection)
          st.in_channels
      else
        toeplitz1dZero
          (genKernel KernelFamily.ricker st.scope st.width st.damp st.self_connection)
          st.in_channels)))
    x

/-- A constant all-ones tensor of the given shape, used as concrete input. -/
def onesT (n c h w : ℕ) : Tensor :=
  { batch := n, channels := c, height := h, width := w, entry := fun _ _ _ _ => 1 }

/-- A concrete single-shot operator state configured for 2 channels. -/
def ssTwo : SingleShotState :=
  { learn_weights := false
    in_channels := 2
    scope := 3
    damp := 12 / 100
    is_circular := true
    self_connection := false
    width := 1
    family := KernelFamily.ricker
    inhibition_filter := genKernel KernelFamily.ricker 3 1 (12 / 100) false }

/-- A concrete single-shot state whose kernel is identically zero (damp = 0)
and whose self-connection flag is set. -/
def ssZeroSelf : SingleShotState :=
  { learn_weights := false
    in_channels := 1
    scope := 1
    damp := 0
    is_circular := true
    self_connection := true
    width := 1
    family := KernelFamily.ricker
    inhibition_filter := genKernel KernelFamily.ricker 1 1 0 true }

/-- A concrete single-shot state whose kernel is identically zero (damp = 0)
with the self-connection flag cleared. -/
def ssZeroNoSelf : SingleShotState :=
  { learn_weights := false
    in_channels := 1
    scope := 1
    damp := 0
    is_circular := true
    self_connection := false
    width := 1
    family := KernelFamily.ricker
    inhibition_filter := genKernel KernelFamily.ricker 1 1 0 false }

/-- Concrete constructor arguments for SingleShotInhibition. -/
def aSingle : SingleShotArgs :=
  { scope := 3, ricker_width := 2, damp := 12 / 100, in_channels := 2 }

/-- Concrete constructor arguments for the gaussian / recurrent classes. -/
def aRec : RecurrentArgs :=
  { scope := 3, width := 2, damp := 12 / 100, in_channels := 2 }

/-- Concrete constructor arguments for ConvergedInhibition. -/
def aConv : ConvergedArgs :=
  { scope := 3, ricker_width := 2, damp := 12 / 100, in_channels := 2 }

/-- Concrete constructor arguments for the frozen classes. -/
def aFroz : FrozenArgs :=
  { scope := 3, ricker_width := 2, in_channels := 1 }

/-- Concrete constructor arguments for ParametrizedInhibition. -/
def aPar : ParamArgs :=
  { scope := 3, initial_ricker_width := 2, initial_damp := 12 / 100, in_channels := 2 }

/-- The single-shot state the constructor yields on aSingle with the
module-level scope binding equal to 1. -/
def ssFromInit : SingleShotState :=
  { learn_weights := aSingle.learn_weights
    in_channels := aSingle.in_channels
    scope := aSingle.scope
    damp := aSingle.damp
    is_circular := aSingle.pad == "circular"
    self_connection := aSingle.self_connection
    width := aSingle.ricker_width
    family := KernelFamily.ricker
    inhibition_filter :=
      genKernel KernelFamily.ricker 1 aSingle.ricker_width aSingle.damp aSingle.self_connection }

/-- The state the recurrent constructor yields on aRec with the module-level
scope binding equal to 2. -/
def recFromInit : SingleShotState :=
  { learn_weights := false
    in_channels := aRec.in_channels
    scope := aRec.scope
    damp := aRec.damp
    is_circular := aRec.pad == "circular"
    self_connection := aRec.self_connection
    width := aRec.width
    family := KernelFamily.gaussian
    inhibition_filter := genKernel KernelFamily.gaussian 2 aRec.width aRec.damp aRec.self_connection }

/-- The frozen state the constructor yields on aFroz with the module-level
scope binding equal to 1. -/
def frozFromInit : FrozenState :=
  frozenMk aFroz (genKernel KernelFamily.ricker 1 aFroz.ricker_width aFroz.damp aFroz.self_connection)

theorem recurrentLoop_eq_iterate (tpl : Mat) (x : Tensor) :
    ∀ (k : ℕ) (y : Tensor),
      recurrentLoop tpl x k y = (fun y => addT x (mixChannels tpl y))^[k] y := by
  intro k
  induction k with
  | zero => intro y; rfl
  | succ k ih =>
      intro y
      rw [recurrentLoop, ih, Function.iterate_succ_apply]

theorem specIter_eq_iterate (tpl : Mat) (x : Tensor) :
    ∀ k : ℕ, specIter tpl x k = (fun y => addT x (mixChannels tpl y))^[k] x := by
  intro k
  induction k with
  | zero => rfl
  | succ k ih => rw [specIter, ih, Function.iterate_succ_apply']

theorem tpl_ssZeroSelf_zero : ∀ i j, (singleShotTpl ssZeroSelf).entry i j = 0 := by
  intro i j
  simp [singleShotTpl, ssZeroSelf, toeplitz1dCircular, genKernel]

theorem tpl_ssZeroNoSelf_zero : ∀ i j, (singleShotTpl ssZeroNoSelf).entry i j = 0 := by
  intro i j
  simp [singleShotTpl, ssZeroNoSelf, toeplitz1dCircular, genKernel]

/-- C1: for every input activation tensor, ConvergedInhibition.forward returns
a tensor of the input shape whose every entry is the matrix inverse of
(identity minus T) applied along the channel axis to the input, where T is
the interaction matrix rebuilt on that call from the current kernel under the
configured boundary policy. -/
theorem converged_forward_applies_inverse (st : ConvergedState) (x : Tensor) :
    ((convergedForward st x).batch = x.batch
      ∧ (convergedForward st x).channels = x.channels
      ∧ (convergedForward st x).height = x.height
      ∧ (convergedForward st x).width = x.width)
    ∧ ∀ n c h w : ℕ,
        (convergedForward st x).entry n c h w =
          ∑ i ∈ Finset.range st.in_channels,
            (matInvM (matSub (matId st.in_channels)
              (if st.is_circular then toeplitz1dCircular st.inhibition_filter st.in_channels
               else toeplitz1dZero st.inhibition_filter st.in_channels))).entry c i
              * x.entry n i h w :=
  ⟨⟨rfl, rfl, rfl, rfl⟩, fun _ _ _ _ => rfl⟩

/-- C2: for every input activation tensor, SingleShotInhibition.forward
returns, entrywise, (0 if self_connection else the input) plus the
interaction matrix T applied along the channel axis to the input, where T is
the Toeplitz matrix built fresh from the current kernel on that call.  The
output shape equals the input shape. -/
theorem single_shot_forward_formula (st : SingleShotState) (x : Tensor) :
    ((singleShotForward st x).batch = x.batch
      ∧ (singleShotForward st x).channels = x.channels
      ∧ (singleShotForward st x).height = x.height
      ∧ (singleShotForward st x).width = x.width)
    ∧ ∀ n c h w : ℕ,
        (singleShotForward st x).entry n c h w =
          (if st.self_connection then 0 else x.entry n c h w)
            + ∑ i ∈ Finset.range st.in_channels,
                (singleShotTpl st).entry c i * x.entry n i h w := by
  constructor
  · cases hs : st.self_connection <;>
      simp [singleShotForward, addT, zerosLike, hs]
  · intro n c h w
    cases hc : st.is_circular <;> cases hs : st.self_connection <;>
      simp [singleShotForward, addT, mixChannels, zerosLike, singleShotTpl, hc, hs,
        toeplitz1dCircular, toeplitz1dZero]

/-- C3: the recurrent variant's forward builds the interaction matrix once
per call and returns the 10th iterate of the update sending y to
x + Mix(T, y) started at the input x: a fixed step count of 10 with no
convergence check. -/
theorem recurrent_forward_ten_fixed_steps (st : SingleShotState) (x : Tensor) :
    recurrentForward st x = specIter (singleShotTpl st) x 10 := by
  rw [recurrentForward, recurrentLoop_eq_iterate, specIter_eq_iterate]

/-- C4: ConvergedFrozenInhibition computes the inverse of (identity minus T)
exactly once, at construction, and caches it in tpl_inv; every forward call
returns the channel mix with the cached inverse and leaves the state
unchanged, so after any sequence of forward calls the cached inverse is the
one computed at construction. -/
theorem frozen_inverse_cached_once (fam : KernelFamily) (a : FrozenArgs) (g : ℕ)
    (st : FrozenState) (x : Tensor) (xs : List Tensor)
    (hpad : a.pad = "circular" ∨ a.pad = "zeros") :
    frozenInit fam a (some g)
        = Except.ok (frozenMk a (genKernel fam g a.ricker_width a.damp a.self_connection))
    ∧ (∀ filt : List ℚ,
        (frozenMk a filt).tpl_inv = matInvM (matSub (matId a.in_channels) (frozenTpl a filt)))
    ∧ frozenForward st x = (mixChannels st.tpl_inv x, st)
    ∧ xs.foldl (fun s y => (frozenForward s y).2) st = st := by
  refine ⟨?_, fun filt => rfl, rfl, ?_⟩
  · rw [frozenInit, if_pos hpad]
    rfl
  · induction xs with
    | nil => rfl
    | cons y t ih => exact ih

/-- C4 witness: the hypotheses of frozen_inverse_cached_once hold at the
concrete arguments aFroz with a global scope binding of 1, a one-element call
sequence and an all-ones input. -/
theorem frozen_inverse_cached_once_applied :
    (aFroz.pad = "circular" ∨ aFroz.pad = "zeros")
    ∧ (frozenInit KernelFamily.ricker aFroz (some 1)
          = Except.ok
              (frozenMk aFroz
                (genKernel KernelFamily.ricker 1 aFroz.ricker_width aFroz.damp
                  aFroz.self_connection))
        ∧ (∀ filt : List ℚ,
            (frozenMk aFroz filt).tpl_inv
              = matInvM (matSub (matId aFroz.in_channels) (frozenTpl aFroz filt)))
        ∧ frozenForward frozFromInit (onesT 1 1 1 1)
            = (mixChannels frozFromInit.tpl_inv (onesT 1 1 1 1), frozFromInit)
        ∧ [onesT 1 1 1 1].foldl (fun s y => (frozenForward s y).2) frozFromInit
            = frozFromInit) :=
  ⟨Or.inl rfl,
    frozen_inverse_cached_once KernelFamily.ricker aFroz 1 frozFromInit (onesT 1 1 1 1)
      [onesT 1 1 1 1] (Or.inl rfl)⟩

/-- C5: ParametrizedInhibition.forward synthesizes a ricker kernel from the
two stored scalars and returns exactly what ConvergedInhibition's converged
solve returns on a state holding that synthesized kernel, under the same
channel count and boundary policy. -/
theorem parametrized_forward_matches_converged (st : ParamState) (x : Tensor) :
    parametrizedForward st x =
      convergedForward
        { scope := st.scope
          in_channels := st.in_channels
          damp := st.damp
          is_circular := st.is_circular
          self_connection := st.self_connection
          width := st.width
          inhibition_filter :=
            genKernel KernelFamily.ricker st.scope st.width st.damp st.self_connection } x :=
  rfl

/-- C6: for every variant, constructing with a pad value outside the set of
circular and zeros fails at construction with the assert error, and
constructing with circular or zeros never yields that configuration error
(it can still fail, with a different error, on the free-name lookup). -/
theorem pad_policy_validated (bad good : String) (g : Option ℕ) (fam : KernelFamily)
    (a1 : SingleShotArgs) (a2 : RecurrentArgs) (a3 : ConvergedArgs) (a4 : FrozenArgs)
    (a5 : ParamArgs)
    (hb : ¬(bad = "circular" ∨ bad = "zeros"))
    (hg : good = "circular" ∨ good = "zeros") :
    singleShotInit { a1 with pad := bad } g = Except.error PyError.assertError
    ∧ singleShotInit { a1 with pad := good } g ≠ Except.error PyError.assertError
    ∧ gaussianChannelFilterInit { a2 with pad := bad } g = Except.error PyError.assertError
    ∧ gaussianChannelFilterInit { a2 with pad := good } g ≠ Except.error PyError.assertError
    ∧ recurrentInit { a2 with pad := bad } g = Except.error PyError.assertError
    ∧ recurrentInit { a2 with pad := good } g ≠ Except.error PyError.assertError
    ∧ convergedInit { a3 with pad := bad } = Except.error PyError.assertError
    ∧ convergedInit { a3 with pad := good } ≠ Except.error PyError.assertError
    ∧ frozenInit fam { a4 with pad := bad } g = Except.error PyError.assertError
    ∧ frozenInit fam { a4 with pad := good } g ≠ Except.error PyError.assertError
    ∧ parametrizedInit { a5 with pad := bad } = Except.error PyError.assertError
    ∧ parametrizedInit { a5 with pad := good } ≠ Except.error PyError.assertError := by
  refine ⟨?_, ?_, ?_, ?_, ?_, ?_, ?_, ?_, ?_, ?_, ?_, ?_⟩
  · rw [singleShotInit, if_neg hb]
  · rw [singleShotInit, if_pos hg]
    cases g <;> simp [makeFilter]
  · rw [gaussianChannelFilterInit, if_neg hb]
  · rw [gaussianChannelFilterInit, if_pos hg]
    cases g <;> simp [makeFilter]
  · rw [recurrentInit, gaussianChannelFilterInit, if_neg hb]
  · rw [recurrentInit, gaussianChannelFilterInit, if_pos hg]
    cases g <;> simp [makeFilter]
  · rw [convergedInit, if_neg hb]
  · rw [convergedInit, if_pos hg]
    simp
  · rw [frozenInit, if_neg hb]
  · rw [frozenInit, if_pos hg]
    cases g <;> simp [makeFilter]
  · rw [parametrizedInit, if_neg hb]
  · rw [parametrizedInit, if_pos hg]
    simp

/-- C6 witness: the hypotheses of pad_policy_validated hold at the concrete
pad strings reflect and zeros, a missing global scope binding, and the
concrete constructor arguments. -/
theorem pad_policy_validated_applied :
    (¬("reflect" = "circular" ∨ "reflect" = "zeros"))
    ∧ ("zeros" = "circular" ∨ "zeros" = "zeros")
    ∧ (singleShotInit { aSingle with pad := "reflect" } none
          = Except.error PyError.assertError
        ∧ singleShotInit { aSingle with pad := "zeros" } none
            ≠ Except.error PyError.assertError
        ∧ gaussianChannelFilterInit { aRec with pad := "reflect" } none
            = Except.error PyError.assertError
        ∧ gaussianChannelFilterInit { aRec with pad := "zeros" } none
            ≠ Except.error PyError.assertError
        ∧ recurrentInit { aRec with pad := "reflect" } none
            = Except.error PyError.assertError
        ∧ recurrentInit { aRec with pad := "zeros" } none
            ≠ Except.error PyError.assertError
        ∧ convergedInit { aConv with pad := "reflect" } = Except.error PyError.assertError
        ∧ convergedInit { aConv with pad := "zeros" } ≠ Except.error PyError.assertError
        ∧ frozenInit KernelFamily.ricker { aFroz with pad := "reflect" } none
            = Except.error PyError.assertError
        ∧ frozenInit KernelFamily.ricker { aFroz with pad := "zeros" } none
            ≠ Except.error PyError.assertError
        ∧ parametrizedInit { aPar with pad := "reflect" } = Except.error PyError.assertError
        ∧ parametrizedInit { aPar with pad := "zeros" } ≠ Except.error PyError.assertError) :=
  ⟨by decide, Or.inr rfl,
    pad_policy_validated "reflect" "zeros" none KernelFamily.ricker aSingle aRec aConv aFroz
      aPar (by decide) (Or.inr rfl)⟩

/-- C7 counterexample: the claim that the single-shot interaction matrix has
the dimension of the actual input's channel count fails at a concrete state
configured for 2 channels and a concrete 3-channel input: the matrix built by
forward has dimension 2, not 3. -/
theorem single_shot_dim_counterexample :
    (singleShotTpl ssTwo).dim ≠ (onesT 1 3 2 2).channels := by
  decide

/-- C7 amended: SingleShotInhibition requires in_channels at construction
like the other variants; the interaction matrix its forward builds has
dimension equal to the stored in_channels attribute, which the constructor
copies from its required argument, independent of any input tensor. -/
theorem single_shot_dim_from_config (st : SingleShotState) :
    (singleShotTpl st).dim = st.in_channels
    ∧ ∀ (a : SingleShotArgs) (g : ℕ) (st2 : SingleShotState),
        singleShotInit a (some g) = Except.ok st2 → st2.in_channels = a.in_channels := by
  constructor
  · cases hc : st.is_circular <;> simp [singleShotTpl, hc, toeplitz1dCircular, toeplitz1dZero]
  · intro a g st2 h
    by_cases hp : a.pad = "circular" ∨ a.pad = "zeros"
    · rw [singleShotInit, if_pos hp] at h
      simp only [makeFilter, Except.ok.injEq] at h
      rw [← h]
    · rw [singleShotInit, if_neg hp] at h
      simp at h

/-- C7 witness: single_shot_dim_from_config applied at the concrete state of
2 channels, with its constructor conclusion instantiated at the concrete
constructor run that yields ssFromInit. -/
theorem single_shot_dim_from_config_applied :
    (singleShotTpl ssTwo).dim = ssTwo.in_channels
    ∧ singleShotInit aSingle (some 1) = Except.ok ssFromInit
    ∧ ssFromInit.in_channels = aSingle.in_channels :=
  ⟨(single_shot_dim_from_config ssTwo).1, rfl,
    (single_shot_dim_from_config ssTwo).2 aSingle 1 ssFromInit rfl⟩

/-- C8 counterexample: at a concrete state whose interaction matrix is the
zero matrix (damp 0) but whose self-connection flag is set, forward does not
return the input: it returns the zero tensor instead. -/
theorem single_shot_zero_matrix_counterexample :
    (∀ i j, (singleShotTpl ssZeroSelf).entry i j = 0)
    ∧ singleShotForward ssZeroSelf (onesT 1 1 1 1) ≠ onesT 1 1 1 1 := by
  refine ⟨tpl_ssZeroSelf_zero, fun h => ?_⟩
  have h0 : (singleShotForward ssZeroSelf (onesT 1 1 1 1)).entry 0 0 0 0 = 0 := by
    simp [singleShotForward, addT, mixChannels, zerosLike, singleShotTpl, ssZeroSelf,
      toeplitz1dCircular, genKernel, onesT]
  rw [h] at h0
  exact one_ne_zero h0

/-- C8 amended: if the interaction matrix is the zero matrix and the
self-connection flag is false (as in the configuration with damp 0 that the
spec describes), SingleShotInhibition.forward returns its input exactly;
with the flag set the re-add of the input is suppressed and the output is the
zero tensor instead. -/
theorem single_shot_zero_matrix_identity (st : SingleShotState) (x : Tensor)
    (hT : ∀ i j, (singleShotTpl st).entry i j = 0)
    (hsc : st.self_connection = false) : singleShotForward st x = x := by
  obtain ⟨b, c, hh, w, e⟩ := x
  simp only [singleShotForward, addT, mixChannels, hsc, Bool.false_eq_true, if_false]
  simp only [Tensor.mk.injEq, true_and]
  funext n cc ph pw
  have hz : ∑ i ∈ Finset.range (singleShotTpl st).dim,
      (singleShotTpl st).entry cc i * e n i ph pw = 0 :=
    Finset.sum_eq_zero fun i _ => by rw [hT cc i, zero_mul]
  simp [hz]

/-- C8 witness: single_shot_zero_matrix_identity applied at the concrete
zero-kernel state without self connection and the all-ones input. -/
theorem single_shot_zero_matrix_identity_applied :
    (∀ i j, (singleShotTpl ssZeroNoSelf).entry i j = 0)
    ∧ ssZeroNoSelf.self_connection = false
    ∧ singleShotForward ssZeroNoSelf (onesT 1 1 1 1) = onesT 1 1 1 1 :=
  ⟨tpl_ssZeroNoSelf_zero, rfl,
    single_shot_zero_matrix_identity ssZeroNoSelf (onesT 1 1 1 1) tpl_ssZeroNoSelf_zero rfl⟩

/-- C9 counterexample: no choice of constructor arguments of the recurrent
variant yields an operator whose kernel family is ricker; the constructor
signature has no filter_distribution parameter and the family is fixed by
the class. -/
theorem recurrent_no_ricker_option :
    ¬ ∃ (a : RecurrentArgs) (g : Option ℕ) (st : SingleShotState),
        recurrentInit a g = Except.ok st ∧ st.family = KernelFamily.ricker := by
  rintro ⟨a, g, st, h, hf⟩
  rw [recurrentInit, gaussianChannelFilterInit] at h
  by_cases hp : a.pad = "circular" ∨ a.pad = "zeros"
  · rw [if_pos hp] at h
    rcases g with _ | g
    · simp [makeFilter] at h
    · simp only [makeFilter, Except.ok.injEq] at h
      rw [← h] at hf
      simp at hf
  · rw [if_neg hp] at h
    simp at h

/-- C9 amended: the recurrent variant exposes no filter_distribution option;
its constructor takes only scope, width, damp, in_channels, pad and
self_connection, and every successfully constructed recurrent operator has
the gaussian kernel family, inherited from SingleShotGaussianChannelFilter. -/
theorem recurrent_family_always_gaussian (a : RecurrentArgs) (g : Option ℕ)
    (st : SingleShotState) (h : recurrentInit a g = Except.ok st) :
    st.family = KernelFamily.gaussian := by
  rw [recurrentInit, gaussianChannelFilterInit] at h
  by_cases hp : a.pad = "circular" ∨ a.pad = "zeros"
  · rw [if_pos hp] at h
    rcases g with _ | g
    · simp [makeFilter] at h
    · simp only [makeFilter, Except.ok.injEq] at h
      rw [← h]
  · rw [if_neg hp] at h
    simp at h

/-- C9 witness: recurrent_family_always_gaussian applied at the concrete
constructor run that yields recFromInit. -/
theorem recurrent_family_always_gaussian_applied :
    recurrentInit aRec (some 2) = Except.ok recFromInit
    ∧ recFromInit.family = KernelFamily.gaussian :=
  ⟨rfl, recurrent_family_always_gaussian aRec (some 2) recFromInit rfl⟩

/-- C10: in the single-shot, gaussian single-shot, frozen and gaussian frozen
classes the filter-making method resolves the free name scope against the
module-level binding, not the instance attribute: with no binding the
constructor fails with NameError (given a valid pad), and with a binding g
the constructed kernel has length g, whatever scope argument was passed. -/
theorem make_filter_reads_global_scope (a1 : SingleShotArgs) (a2 : RecurrentArgs)
    (a4 : FrozenArgs) (g : ℕ)
    (h1 : a1.pad = "circular" ∨ a1.pad = "zeros")
    (h2 : a2.pad = "circular" ∨ a2.pad = "zeros")
    (h4 : a4.pad = "circular" ∨ a4.pad = "zeros") :
    (∀ (fam : KernelFamily) (w d : ℚ) (sc : Bool),
        makeFilter fam none w d sc = Except.error PyError.nameError)
    ∧ (∀ (fam : KernelFamily) (w d : ℚ) (sc : Bool),
        makeFilter fam (some g) w d sc = Except.ok (genKernel fam g w d sc))
    ∧ singleShotInit a1 none = Except.error PyError.nameError
    ∧ gaussianChannelFilterInit a2 none = Except.error PyError.nameError
    ∧ frozenInit KernelFamily.ricker a4 none = Except.error PyError.nameError
    ∧ frozenInit KernelFamily.gaussian a4 none = Except.error PyError.nameError
    ∧ (∀ st : SingleShotState,
        singleShotInit a1 (some g) = Except.ok st → st.inhibition_filter.length = g)
    ∧ (∀ st : SingleShotState,
        gaussianChannelFilterInit a2 (some g) = Except.ok st
          → st.inhibition_filter.length = g)
    ∧ (∀ st : FrozenState,
        frozenInit KernelFamily.ricker a4 (some g) = Except.ok st
          → st.inhibition_filter.length = g)
    ∧ (∀ st : FrozenState,
        frozenInit KernelFamily.gaussian a4 (some g) = Except.ok st
          → st.inhibition_filter.length = g) := by
  refine ⟨fun fam w d sc => rfl, fun fam w d sc => rfl, ?_, ?_, ?_, ?_, ?_, ?_, ?_, ?_⟩
  · rw [singleShotInit, if_pos h1]
    rfl
  · rw [gaussianChannelFilterInit, if_pos h2]
    rfl
  · rw [frozenInit, if_pos h4]
    rfl
  · rw [frozenInit, if_pos h4]
    rfl
  · intro st h
    rw [singleShotInit, if_pos h1] at h
    simp only [makeFilter, Except.ok.injEq] at h
    rw [← h]
    simp [genKernel]
  · intro st h
    rw [gaussianChannelFilterInit, if_pos h2] at h
    simp only [makeFilter, Except.ok.injEq] at h
    rw [← h]
    simp [genKernel]
  · intro st h
    rw [frozenInit, if_pos h4] at h
    simp only [makeFilter, Except.ok.injEq] at h
    rw [← h]
    simp [frozenMk, genKernel]
  · intro st h
    rw [frozenInit, if_pos h4] at h
    simp only [makeFilter, Except.ok.injEq] at h
    rw [← h]
    simp [frozenMk, genKernel]

/-- C10 witness: the hypotheses of make_filter_reads_global_scope hold at the
concrete constructor arguments (all with the default circular pad) and the
global scope binding 5, and two of its conclusions are instantiated at
concrete states. -/
theorem make_filter_reads_global_scope_applied :
    (aSingle.pad = "circular" ∨ aSingle.pad = "zeros")
    ∧ singleShotInit aSingle none = Except.error PyError.nameError
    ∧ singleShotInit aSingle (some 1) = Except.ok ssFromInit
    ∧ ssFromInit.inhibition_filter.length = 1 :=
  ⟨Or.inl rfl,
    (make_filter_reads_global_scope aSingle aRec aFroz 1 (Or.inl rfl) (Or.inl rfl)
      (Or.inl rfl)).2.2.1,
    rfl,
    (make_filter_reads_global_scope aSingle aRec aFroz 1 (Or.inl rfl) (Or.inl rfl)
      (Or.inl rfl)).2.2.2.2.2.2.1 ssFromInit rfl⟩

end Inhibition
